import Mathlib

/-!
Verification of the FreeSwapP2P repository (FreeSwapP2P.py, IotaWallet.py).

Python floats that hold coin amounts are modelled as exact rationals (ℚ);
Python ints as ℤ/ℕ; strings as `List Char` where character-level behaviour
matters (regexes, `str.split()`).  Calls into the external iota_sdk wallet
library are modelled as oracle parameters of type `Except String _`: `.ok`
is a normal return, `.error e` is the library raising an exception whose
text is `e`.
-/

/-- Modelled from IotaWallet.py `send_transaction_any` (lines 268-312):
the Python dict `{'amount': ..., 'timestamp': ..., 'error': ...}` returned on
failure, or the transaction object returned by the SDK on success (only its
observable role as an opaque returned value matters to the responder). -/
structure TxResult where
  amount : String
  timestamp : String
  error : Option String
deriving DecidableEq

/-- IotaWallet.py lines 268-312, `send_transaction_any`: every exception of
the underlying SDK call is caught by the function's own `try/except` (lines
311-312) and turned into the fallback dict `{'amount': '0', 'timestamp':
'0', 'error': str(e)}`; the function never raises. -/
def send_transaction_any (sdk : Except String TxResult) : TxResult :=
  match sdk with
  | .ok tx => tx
  | .error e => { amount := "0", timestamp := "0", error := some e }

/-- Mutable local state of `responder_transaction_with_self_sent_adjustment`
(IotaWallet.py lines 656-726): starting balance baseline, accounted received
and responded totals, the response schedule, and the next-chunk index. -/
structure RState where
  starting_balance : ℚ
  total_received : ℚ
  total_responded : ℚ
  response_amounts : List ℚ
  idx : ℕ
deriving DecidableEq

/-- IotaWallet.py line 695:
`net_increment = current_balance - (starting_balance + total_received - total_responded)`. -/
def netIncrement (current_balance starting_balance total_received total_responded : ℚ) : ℚ :=
  current_balance - (starting_balance + total_received - total_responded)

/-- Result of one iteration of the responder's `while` body:
the updated state, whether a chunk dispatch was attempted (i.e.
`send_transaction_any` was called), what that call returned, and whether the
iteration ended in a `break` (`stopped = true`) or fell through to the next
loop test (`stopped = false`). -/
structure StepResult where
  state : RState
  dispatched : Bool
  sent : Option TxResult
  stopped : Bool
deriving DecidableEq

/-- One iteration of the responder `while` body, IotaWallet.py lines 692-724,
entered when the loop guard `total_received < max_amount_received` held.
`current_balance` is the balance observed this cycle (line 694) and `sdk` is
the outcome of the SDK send inside `send_transaction_any`.  The `except`
clause at lines 715-717 is dead code: `send_transaction_any` catches every
exception itself and returns normally, so the dispatch branch always runs
`total_responded += send_amt; idx += 1` (lines 713-714). -/
def responderStep (max_amount_received : ℚ) (sdk : Except String TxResult)
    (current_balance : ℚ) (s : RState) : StepResult :=
  let net := netIncrement current_balance s.starting_balance s.total_received s.total_responded
  if 0 < net ∨ s.total_responded = 0 then
    -- line 697: `if net_increment > 0 or total_responded == 0:`
    let s1 := { s with total_received := s.total_received + net }
    if h : s.idx < s.response_amounts.length then
      let send_amt := s1.response_amounts.get ⟨s.idx, h⟩
      let tx := send_transaction_any sdk
      let s2 := { s1 with total_responded := s1.total_responded + send_amt, idx := s1.idx + 1 }
      -- lines 722-724: `if total_received >= max_amount_received: break`
      { state := s2, dispatched := true, sent := some tx,
        stopped := decide (max_amount_received ≤ s2.total_received) }
    else
      -- lines 718-720: `print(...); break`
      { state := s1, dispatched := false, sent := none, stopped := true }
  else
    { state := s, dispatched := false, sent := none,
      stopped := decide (max_amount_received ≤ s.total_received) }

/-- The responder `while` loop, IotaWallet.py lines 691-724, with explicit
fuel.  `obs k` / `sdkAt k` are the balance observation and SDK-send outcome
of the k-th cycle.  `none` means the fuel ran out while the loop was still
running; `some s` is the state at loop exit. -/
def responderLoop (max_amount_received : ℚ) (obs : ℕ → ℚ)
    (sdkAt : ℕ → Except String TxResult) : ℕ → ℕ → RState → Option RState
  | 0, _, _ => none
  | fuel + 1, k, s =>
    if s.total_received < max_amount_received then
      let r := responderStep max_amount_received (sdkAt k) (obs k) s
      if r.stopped then some r.state
      else responderLoop max_amount_received obs sdkAt fuel (k + 1) r.state
    else some s

/-- C1: each poll cycle computes the net increment as
`net = current_balance - (starting_balance + total_received - total_responded)`
(IotaWallet.py line 695); the qualifying branch of every cycle adds exactly
this quantity to `total_received`; and at starting_balance=100,
total_received=20, total_responded=15, current_balance=112 the net is 7. -/
theorem netIncrement_spec :
    (∀ cb sb tr trd : ℚ, netIncrement cb sb tr trd = cb - (sb + tr - trd)) ∧
    (∀ (maxr : ℚ) (sdk : Except String TxResult) (cb : ℚ) (s : RState),
      (responderStep maxr sdk cb s).state.total_received =
        s.total_received +
          (if 0 < netIncrement cb s.starting_balance s.total_received s.total_responded ∨
              s.total_responded = 0
           then netIncrement cb s.starting_balance s.total_received s.total_responded
           else 0)) ∧
    netIncrement 112 100 20 15 = 7 := by
  refine ⟨fun _ _ _ _ => rfl, fun maxr sdk cb s => ?_, by norm_num [netIncrement]⟩
  by_cases hq : 0 < netIncrement cb s.starting_balance s.total_received s.total_responded ∨
      s.total_responded = 0
  · by_cases hi : s.idx < s.response_amounts.length
    · simp [responderStep, hq, hi]
    · simp [responderStep, hq, hi]
  · simp [responderStep, hq]

/-- Powers of two by doubling (kernel-reduction-friendly form of `2 ^ n`). -/
def pow2 : ℕ → ℕ
  | 0 => 1
  | n + 1 => 2 * pow2 n

/-- Position of the top bit of `n` (⌊log₂ n⌋), fuel-bounded; the fuel 4096
covers every value below 2^4096, far past any magnitude these claims
touch. -/
def findExp : ℕ → ℕ → ℕ
  | 0, _ => 0
  | f + 1, n => if n < 2 then 0 else findExp f (n / 2) + 1

/-- Integer division `a / b` rounded to nearest, ties to even (`b > 0`). -/
def divRNE (a b : ℕ) : ℕ :=
  let q := a / b
  let r := a % b
  if 2 * r < b then q else if b < 2 * r then q + 1 else if q % 2 = 0 then q else q + 1

/-- Decides `2^d ≤ p / q` for naturals `p ≥ 1`, `q ≥ 1` and an integer `d`. -/
def ratPow2Le (d : ℤ) (p q : ℕ) : Bool :=
  if 0 ≤ d then decide (q * pow2 d.toNat ≤ p) else decide (q ≤ p * pow2 (-d).toNat)

/-- `⌊log₂ (p / q)⌋` for naturals `p ≥ 1`, `q ≥ 1`. -/
def ratLog2 (p q : ℕ) : ℤ :=
  let d : ℤ := (findExp 4096 p : ℤ) - (findExp 4096 q : ℤ)
  if ratPow2Le d p q then d else d - 1

/-- Doubles are represented exactly: `v : ℤ` stands for the finite IEEE-754
binary64 value `v * 2^-1074` (2^-1074 is the smallest positive subnormal,
so every finite double is an integer multiple of it).  `fixScale` is the
representation of 1.0. -/
def fixScale : ℕ := pow2 1074

/-- Round the positive rational `p / q` (`p, q ≥ 1`) to the nearest
IEEE-754 binary64 value: round to nearest with ties to even on the 53-bit
significand, gradual underflow to subnormals below 2^-1022.  The result is
returned in 2^-1074 units.  Overflow to infinity is not modelled (the
schedule magnitudes sit far below 2^1024). -/
def roundPosRatToFix (p q : ℕ) : ℕ :=
  if p = 0 then 0
  else
    let e := ratLog2 p q
    let u : ℤ := max (e - 52) (-1074)
    let M := if 0 ≤ u then divRNE p (q * pow2 u.toNat) else divRNE (p * pow2 (-u).toNat) q
    M * pow2 (u + 1074).toNat

/-- Signed correctly-rounded conversion of `p / q` (`q ≥ 1`) to a double in
2^-1074 units (round-to-nearest-even is symmetric under negation). -/
def flRatToFix (p : ℤ) (q : ℕ) : ℤ :=
  if p < 0 then -(roundPosRatToFix p.natAbs q : ℤ) else (roundPosRatToFix p.natAbs q : ℤ)

/-- Binary64 addition of two doubles in 2^-1074 units: the exact sum (still
an integer in those units) rounded once to a double. -/
def flAddF (a b : ℤ) : ℤ := flRatToFix (a + b) fixScale

/-- Binary64 subtraction of two doubles in 2^-1074 units. -/
def flSubF (a b : ℤ) : ℤ := flRatToFix (a - b) fixScale

/-- Binary64 division of a double by a Python int `n`: CPython first
converts the int to a double (exact for `n < 2^53`, which any chunk count
is) and then divides, so the result is the real quotient correctly rounded
once. -/
def flDivByNatF (a : ℤ) (n : ℕ) : ℤ := flRatToFix a (n * fixScale)

/-- CPython `round(x, 8)` on a double `x` (IotaWallet.py line 679): the
exact binary value of `x` is rounded to 8 decimal places with ties to even,
and the resulting decimal is converted to the nearest double (CPython's
`double_round` is correctly rounded via the Gay dtoa/strtod routines). -/
def pyRound8F (a : ℤ) : ℤ :=
  let j : ℤ :=
    if a < 0 then -(divRNE (a.natAbs * 100000000) fixScale : ℤ)
    else (divRNE (a.natAbs * 100000000) fixScale : ℤ)
  flRatToFix j 100000000

/-- Python `sum` over a list of doubles: a left fold of binary64 additions
starting from the int 0 (`0 + x` is exact). -/
def flSumF (l : List ℤ) : ℤ := l.foldl flAddF 0

/-- IotaWallet.py lines 677-685 in binary64 semantics (doubles in 2^-1074
units): `per_response = round(max_response_amount / divisor, 8)`;
`response_amounts = [per_response] * divisor`;
`diff = max_response_amount - sum(response_amounts)` (float sum, float
subtraction); `if abs(diff) > 0: response_amounts[-1] += diff` (float
addition).  On finite doubles `abs(diff) > 0` is `diff ≠ 0`, and `[-1]` is
index `divisor - 1` for `divisor ≥ 1`, the only case the responder is
called with. -/
def buildSchedule (max_response_amount : ℤ) (divisor : ℕ) : List ℤ :=
  let per_response := pyRound8F (flDivByNatF max_response_amount divisor)
  let response_amounts := List.replicate divisor per_response
  let diff := flSubF max_response_amount (flSumF response_amounts)
  if diff ≠ 0 then response_amounts.set (divisor - 1) (flAddF per_response diff)
  else response_amounts

lemma set_replicate_last {α : Type} (n : ℕ) (hn : 1 ≤ n) (a v : α) :
    (List.replicate n a).set (n - 1) v = List.replicate (n - 1) a ++ [v] := by
  induction n with
  | zero => omega
  | succ m ih =>
    cases m with
    | zero => simp
    | succ k =>
      rw [List.replicate_succ, show k + 1 + 1 - 1 = (k + 1 - 1) + 1 by omega, List.set_cons_succ]
      rw [ih (by omega)]
      simp [List.replicate_succ]

/-- The double nearest 687.11, in 2^-1074 units. -/
def T687 : ℤ := flRatToFix 68711 100

set_option maxRecDepth 400000 in
/-- C2 counterexample: for `T = 687.11` (as the double the program would
hold) and `N = 11`, the schedule built by IotaWallet.py lines 679-685 does
NOT sum exactly to `T`: neither its float sum (Python `sum`, which prints
as 687.1099999999999) nor even the exact mathematical sum of its 11 chunk
values equals `T`, because `sum`, the residue `diff = T - sum(...)` and the
final `+= diff` are all rounded binary64 operations.  The claimed exact-sum
property is false of the program. -/
theorem schedule_float_sum_cex :
    (buildSchedule T687 11).length = 11 ∧
    flSumF (buildSchedule T687 11) ≠ T687 ∧
    (buildSchedule T687 11).sum ≠ T687 := by
  decide

/-- C2 amended: for a target `T` (a double) and chunk count
`N = divisor ≥ 1`, the schedule has exactly `N` chunks; its first `N - 1`
chunks all equal the rounded equal part `round(T/N, 8)`; and the rounding
residue `diff = T ⊖ sum(parts)` (float subtraction of the float sum),
when non-zero, is added by one float addition entirely to the last chunk
(when `diff = 0` the last chunk stays the equal part).  The schedule's
binary64 sum, however, need not equal `T` exactly
(`schedule_float_sum_cex`). -/
theorem schedule_construction_float (T : ℤ) (N : ℕ) (hN : 1 ≤ N) :
    (buildSchedule T N).length = N ∧
    (buildSchedule T N).take (N - 1) =
      List.replicate (N - 1) (pyRound8F (flDivByNatF T N)) ∧
    (buildSchedule T N).getLast? = some
      (if flSubF T (flSumF (List.replicate N (pyRound8F (flDivByNatF T N)))) ≠ 0
       then flAddF (pyRound8F (flDivByNatF T N))
              (flSubF T (flSumF (List.replicate N (pyRound8F (flDivByNatF T N)))))
       else pyRound8F (flDivByNatF T N)) := by
  simp only [buildSchedule]
  set per := pyRound8F (flDivByNatF T N) with hper
  set diff := flSubF T (flSumF (List.replicate N per)) with hdiff
  have hrepl : List.replicate N per = List.replicate (N - 1) per ++ [per] := by
    conv_lhs => rw [show N = (N - 1) + 1 by omega]
    exact List.replicate_succ' (N - 1) per
  by_cases hd : diff = 0
  · rw [if_neg (by simpa using hd), if_neg (by simpa using hd)]
    refine ⟨List.length_replicate N per, ?_, ?_⟩
    · rw [hrepl, List.take_left' (List.length_replicate _ _)]
    · rw [hrepl, List.getLast?_concat]
  · rw [if_pos (by simpa using hd), if_pos (by simpa using hd), set_replicate_last N hN]
    refine ⟨?_, ?_, ?_⟩
    · simp; omega
    · rw [List.take_left' (List.length_replicate _ _)]
    · exact List.getLast?_concat _

set_option maxRecDepth 400000 in
/-- Witness for `schedule_construction_float` at `T = 1.0` (the double
`fixScale`) and `N = 3`. -/
theorem schedule_construction_float_witness :
    1 ≤ 3 ∧
    ((buildSchedule (flRatToFix 1 1) 3).length = 3 ∧
     (buildSchedule (flRatToFix 1 1) 3).take (3 - 1) =
       List.replicate (3 - 1) (pyRound8F (flDivByNatF (flRatToFix 1 1) 3)) ∧
     (buildSchedule (flRatToFix 1 1) 3).getLast? = some
       (if flSubF (flRatToFix 1 1)
              (flSumF (List.replicate 3 (pyRound8F (flDivByNatF (flRatToFix 1 1) 3)))) ≠ 0
        then flAddF (pyRound8F (flDivByNatF (flRatToFix 1 1) 3))
               (flSubF (flRatToFix 1 1)
                 (flSumF (List.replicate 3 (pyRound8F (flDivByNatF (flRatToFix 1 1) 3)))))
        else pyRound8F (flDivByNatF (flRatToFix 1 1) 3))) :=
  ⟨by norm_num, schedule_construction_float (flRatToFix 1 1) 3 (by norm_num)⟩

/-- A sample successful SDK transaction result, used as a fixture. -/
def txOk : TxResult := { amount := "5", timestamp := "1700000000", error := none }

/-- Fixture: fresh responder state in its very first cycle (nothing
responded yet), with the observed balance equal to the starting balance. -/
def cexState3 : RState :=
  { starting_balance := 100, total_received := 0, total_responded := 0,
    response_amounts := [2, 3], idx := 0 }

/-- C3 counterexample: with the cap not reached and unsent chunks
remaining, a cycle whose net increment is 0 (not strictly positive) still
dispatches a chunk, because the code's condition (IotaWallet.py line 697) is
`net_increment > 0 or total_responded == 0` and `total_responded = 0` holds
in the first cycle.  So "dispatched iff net > 0" is false. -/
theorem responder_first_cycle_dispatch_cex :
    cexState3.total_received < 10 ∧
    cexState3.idx < cexState3.response_amounts.length ∧
    ¬(0 < netIncrement 100 cexState3.starting_balance cexState3.total_received
        cexState3.total_responded) ∧
    (responderStep 10 (.ok txOk) 100 cexState3).dispatched = true ∧
    (responderStep 10 (.ok txOk) 100 cexState3).state.idx = 1 := by
  refine ⟨by norm_num [cexState3], by norm_num [cexState3], ?_, ?_, ?_⟩
  · norm_num [netIncrement, cexState3]
  · norm_num [responderStep, netIncrement, cexState3]
  · norm_num [responderStep, netIncrement, cexState3]

/-- C3 amended: with the cap not reached and unsent chunks remaining, a
chunk is dispatched iff the net increment is strictly positive OR
`total_responded = 0` (first-cycle bootstrap); in cycles where neither
holds, nothing is dispatched and `total_received` is unchanged. -/
theorem responder_dispatch_iff (maxr cb : ℚ) (sdk : Except String TxResult) (s : RState)
    (h1 : s.total_received < maxr) (h2 : s.idx < s.response_amounts.length) :
    ((responderStep maxr sdk cb s).dispatched = true ↔
      (0 < netIncrement cb s.starting_balance s.total_received s.total_responded ∨
       s.total_responded = 0)) ∧
    (¬(0 < netIncrement cb s.starting_balance s.total_received s.total_responded) →
      s.total_responded ≠ 0 →
      (responderStep maxr sdk cb s).dispatched = false ∧
      (responderStep maxr sdk cb s).state.total_received = s.total_received) := by
  by_cases hq : 0 < netIncrement cb s.starting_balance s.total_received s.total_responded ∨
      s.total_responded = 0
  · refine ⟨by simp [responderStep, hq, h2], fun hn ht => ?_⟩
    exact absurd hq (by tauto)
  · refine ⟨by simp [responderStep, hq], fun _ _ => ⟨?_, ?_⟩⟩
    · simp [responderStep, hq]
    · simp [responderStep, hq]

/-- Fixture: mid-run responder state with a strictly positive net increment
available at observed balance 104. -/
def wexState3 : RState :=
  { starting_balance := 100, total_received := 1, total_responded := 2,
    response_amounts := [2, 3], idx := 1 }

/-- Witness for `responder_dispatch_iff` at `wexState3`, cap 10, observed
balance 104 (net increment 5 > 0). -/
theorem responder_dispatch_iff_witness :
    wexState3.total_received < 10 ∧
    wexState3.idx < wexState3.response_amounts.length ∧
    (((responderStep 10 (.ok txOk) 104 wexState3).dispatched = true ↔
      (0 < netIncrement 104 wexState3.starting_balance wexState3.total_received
          wexState3.total_responded ∨
       wexState3.total_responded = 0)) ∧
     (¬(0 < netIncrement 104 wexState3.starting_balance wexState3.total_received
          wexState3.total_responded) →
      wexState3.total_responded ≠ 0 →
      (responderStep 10 (.ok txOk) 104 wexState3).dispatched = false ∧
      (responderStep 10 (.ok txOk) 104 wexState3).state.total_received =
        wexState3.total_received)) :=
  ⟨by decide, by decide,
   responder_dispatch_iff 10 104 (.ok txOk) wexState3 (by decide) (by decide)⟩

/-- C4: the loop guard (IotaWallet.py line 691) is
`while total_received < max_amount_received`, so from any state whose
`total_received` already reached the cap the loop performs no further poll
cycle and exits at once, whatever the schedule index is. -/
theorem responder_cap_terminates (maxr : ℚ) (obs : ℕ → ℚ)
    (sdkAt : ℕ → Except String TxResult) (fuel k : ℕ) (s : RState)
    (h : maxr ≤ s.total_received) :
    responderLoop maxr obs sdkAt (fuel + 1) k s = some s := by
  unfold responderLoop
  rw [if_neg (not_lt.mpr h)]

/-- Fixture: responder state past the cap but mid-schedule (idx 1 of 2). -/
def capState : RState :=
  { starting_balance := 0, total_received := 12, total_responded := 2,
    response_amounts := [2, 3], idx := 1 }

/-- Witness for `responder_cap_terminates` at `capState` (cap 10 already
exceeded, one chunk still unsent). -/
theorem responder_cap_terminates_witness :
    (10 : ℚ) ≤ capState.total_received ∧
    responderLoop 10 (fun _ => 0) (fun _ => .ok txOk) 1 0 capState = some capState :=
  ⟨by decide, responder_cap_terminates 10 (fun _ => 0) (fun _ => .ok txOk) 0 0 capState (by decide)⟩

/-- Fixture: responder state whose schedule is exhausted (idx 2 of 2) while
the received cap (10) is not reached. -/
def exhState : RState :=
  { starting_balance := 100, total_received := 3, total_responded := 5,
    response_amounts := [2, 3], idx := 2 }

/-- C5 counterexample: with the schedule exhausted (idx ≥ length) and the
cap not reached, a cycle with non-positive net increment does NOT terminate
the loop: the `break` at IotaWallet.py line 720 sits inside the
`net_increment > 0 or total_responded == 0` branch, so the loop keeps
polling unchanged (and with a permanently non-positive net it never exits:
the fuel-bounded run returns `none`). -/
lemma exhState_step_eval :
    responderStep 10 (.ok txOk) 98 exhState =
      { state := exhState, dispatched := false, sent := none, stopped := false } := by
  unfold responderStep
  norm_num [netIncrement, exhState]

lemma loop_none_of_stuck (maxr : ℚ) (obs : ℕ → ℚ) (sdkAt : ℕ → Except String TxResult)
    (s : RState) (hlt : s.total_received < maxr)
    (hstep : ∀ k, responderStep maxr (sdkAt k) (obs k) s =
      { state := s, dispatched := false, sent := none, stopped := false }) :
    ∀ fuel k, responderLoop maxr obs sdkAt fuel k s = none := by
  intro fuel
  induction fuel with
  | zero => intro k; rfl
  | succ f ih =>
    intro k
    show (if s.total_received < maxr then
        let r := responderStep maxr (sdkAt k) (obs k) s
        if r.stopped then some r.state
        else responderLoop maxr obs sdkAt f (k + 1) r.state
      else some s) = none
    rw [if_pos hlt, hstep k]
    simpa using ih (k + 1)

theorem schedule_exhausted_polls_cex :
    exhState.response_amounts.length ≤ exhState.idx ∧
    exhState.total_received < 10 ∧
    (responderStep 10 (.ok txOk) 98 exhState).stopped = false ∧
    (responderStep 10 (.ok txOk) 98 exhState).state = exhState ∧
    responderLoop 10 (fun _ => 98) (fun _ => .ok txOk) 5 0 exhState = none := by
  have hlt : exhState.total_received < 10 := by norm_num [exhState]
  refine ⟨by decide, hlt, ?_, ?_, ?_⟩
  · rw [exhState_step_eval]
  · rw [exhState_step_eval]
  · exact loop_none_of_stuck 10 _ _ exhState hlt (fun _ => exhState_step_eval) 5 0

/-- C5 amended: with the schedule exhausted, a cycle breaks out of the loop
iff the dispatch-qualifying condition holds (net increment > 0 or
`total_responded = 0`) or the cap is already reached; no chunk is ever
dispatched past the schedule end; and a cycle that does not stop leaves the
state unchanged (the loop keeps polling). -/
theorem schedule_exhausted_stop_iff (maxr cb : ℚ) (sdk : Except String TxResult) (s : RState)
    (h : s.response_amounts.length ≤ s.idx) :
    ((responderStep maxr sdk cb s).stopped = true ↔
      (0 < netIncrement cb s.starting_balance s.total_received s.total_responded ∨
       s.total_responded = 0 ∨ maxr ≤ s.total_received)) ∧
    (responderStep maxr sdk cb s).dispatched = false ∧
    ((responderStep maxr sdk cb s).stopped = false →
      (responderStep maxr sdk cb s).state = s) := by
  have h2 : ¬ s.idx < s.response_amounts.length := by omega
  by_cases hq : 0 < netIncrement cb s.starting_balance s.total_received s.total_responded ∨
      s.total_responded = 0
  · refine ⟨by simp [responderStep, hq, h2]; tauto, by simp [responderStep, hq, h2], ?_⟩
    simp [responderStep, hq, h2]
  · refine ⟨?_, by simp [responderStep, hq], by simp [responderStep, hq]⟩
    simp [responderStep, hq, h2]
    tauto

/-- Witness for `schedule_exhausted_stop_iff` at `exhState` with observed
balance 99 (net increment 1 > 0, so this cycle stops the loop). -/
theorem schedule_exhausted_stop_iff_witness :
    exhState.response_amounts.length ≤ exhState.idx ∧
    (((responderStep 10 (.ok txOk) 99 exhState).stopped = true ↔
      (0 < netIncrement 99 exhState.starting_balance exhState.total_received
          exhState.total_responded ∨
       exhState.total_responded = 0 ∨ (10 : ℚ) ≤ exhState.total_received)) ∧
     (responderStep 10 (.ok txOk) 99 exhState).dispatched = false ∧
     ((responderStep 10 (.ok txOk) 99 exhState).stopped = false →
      (responderStep 10 (.ok txOk) 99 exhState).state = exhState)) :=
  ⟨by decide, schedule_exhausted_stop_iff 10 99 (.ok txOk) exhState (by decide)⟩

/-- Fixture: responder state with one chunk already sent and a positive net
increment pending at observed balance 105. -/
def failState : RState :=
  { starting_balance := 100, total_received := 0, total_responded := 1,
    response_amounts := [2, 3], idx := 1 }

/-- C6 counterexample: when the SDK dispatch fails, `send_transaction_any`
swallows the exception (IotaWallet.py lines 311-312) and returns the
fallback dict, so the responder's own `except` (lines 715-717) never runs:
the cycle still executes `total_responded += send_amt; idx += 1`
(lines 713-714).  Hence after a failed dispatch `idx` advances and
`total_responded` is incremented — the claim's "idx unchanged and
total_responded unchanged" is false. -/
theorem failed_dispatch_advances_cex :
    (responderStep 10 (.error "node offline") 105 failState).state.idx = failState.idx + 1 ∧
    (responderStep 10 (.error "node offline") 105 failState).state.total_responded ≠
      failState.total_responded ∧
    (responderStep 10 (.error "node offline") 105 failState).sent =
      some { amount := "0", timestamp := "0", error := some "node offline" } := by
  refine ⟨?_, ?_, ?_⟩
  · norm_num [responderStep, netIncrement, failState]
  · norm_num [responderStep, netIncrement, failState]
  · norm_num [responderStep, netIncrement, failState, send_transaction_any]

/-- C6 amended: in a qualifying cycle with unsent chunks, a failed SDK
dispatch is absorbed inside `send_transaction_any`, which returns the
fallback object carrying the error text; the responder proceeds exactly as
on success: the chunk counts as dispatched, `total_responded` grows by the
chunk amount, `idx` advances by one, the process does not fail, and the loop
stops only if the updated `total_received` reached the cap. -/
theorem failed_dispatch_behavior (maxr cb : ℚ) (e : String) (s : RState)
    (h1 : s.idx < s.response_amounts.length)
    (h2 : 0 < netIncrement cb s.starting_balance s.total_received s.total_responded ∨
      s.total_responded = 0) :
    (responderStep maxr (.error e) cb s).dispatched = true ∧
    (responderStep maxr (.error e) cb s).sent =
      some { amount := "0", timestamp := "0", error := some e } ∧
    (responderStep maxr (.error e) cb s).state.idx = s.idx + 1 ∧
    (responderStep maxr (.error e) cb s).state.total_responded =
      s.total_responded + s.response_amounts.getD s.idx 0 ∧
    ((responderStep maxr (.error e) cb s).stopped = true ↔
      maxr ≤ s.total_received +
        netIncrement cb s.starting_balance s.total_received s.total_responded) := by
  have hget : s.response_amounts.getD s.idx 0 = s.response_amounts.get ⟨s.idx, h1⟩ := by
    rw [List.getD_eq_getElem?_getD, List.getElem?_eq_getElem h1]
    rfl
  refine ⟨by simp [responderStep, h2, h1], ?_, ?_, ?_, ?_⟩
  · simp [responderStep, h2, h1, send_transaction_any]
  · simp [responderStep, h2, h1]
  · simp [responderStep, h2, h1, hget]
  · simp [responderStep, h2, h1]

/-- Witness for `failed_dispatch_behavior` at `failState` with observed
balance 105 and a failing SDK send. -/
theorem failed_dispatch_behavior_witness :
    failState.idx < failState.response_amounts.length ∧
    ((responderStep 10 (.error "node offline") 105 failState).dispatched = true ∧
     (responderStep 10 (.error "node offline") 105 failState).sent =
       some { amount := "0", timestamp := "0", error := some "node offline" } ∧
     (responderStep 10 (.error "node offline") 105 failState).state.idx = failState.idx + 1 ∧
     (responderStep 10 (.error "node offline") 105 failState).state.total_responded =
       failState.total_responded + failState.response_amounts.getD failState.idx 0 ∧
     ((responderStep 10 (.error "node offline") 105 failState).stopped = true ↔
       (10 : ℚ) ≤ failState.total_received +
         netIncrement 105 failState.starting_balance failState.total_received
           failState.total_responded)) :=
  ⟨by decide,
   failed_dispatch_behavior 10 105 "node offline" failState (by decide)
     (by norm_num [netIncrement, failState])⟩

/-- Python whitespace for `str.split()` with no arguments:
space, tab, newline, carriage return, vertical tab, form feed. -/
def pyIsSpace (c : Char) : Bool :=
  c == ' ' || c == '\t' || c == '\n' || c == '\r' || c == Char.ofNat 11 || c == Char.ofNat 12

/-- Helper for `pyWords`: accumulates the current word (reversed). -/
def pyWordsAux : List Char → List Char → List (List Char)
  | [], acc => if acc = [] then [] else [acc.reverse]
  | c :: rest, acc =>
    if pyIsSpace c then
      if acc = [] then pyWordsAux rest []
      else acc.reverse :: pyWordsAux rest []
    else pyWordsAux rest (c :: acc)

/-- Model of Python `s.split()` (no arguments): split on runs of
whitespace, discarding empty fragments. -/
def pyWords (s : List Char) : List (List Char) := pyWordsAux s []

/-- Model of Python `s.startswith(p)`: `startsWithChars p s`. -/
def startsWithChars : List Char → List Char → Bool
  | [], _ => true
  | _ :: _, [] => false
  | p :: ps, c :: cs => if p = c then startsWithChars ps cs else false

/-- The literal `"Bearer "` that both `_auth` and `logout` test for
(FreeSwapP2P.py lines 82 and 136). -/
def bearerLit : List Char := ['B', 'e', 'a', 'r', 'e', 'r', ' ']

lemma startsWithChars_append (p t : List Char) : startsWithChars p (p ++ t) = true := by
  induction p with
  | nil => rfl
  | cons c cs ih => simp [startsWithChars, ih]

lemma pyWordsAux_nosplit (t : List Char) (hns : ∀ c ∈ t, pyIsSpace c = false) :
    ∀ acc : List Char, acc ≠ [] ∨ t ≠ [] → pyWordsAux t acc = [acc.reverse ++ t] := by
  induction t with
  | nil =>
    intro acc hne
    rcases hne with h | h
    · simp [pyWordsAux, h]
    · exact absurd rfl h
  | cons c cs ih =>
    intro acc _
    have hc : pyIsSpace c = false := hns c (by simp)
    have hcs : ∀ x ∈ cs, pyIsSpace x = false := fun x hx => hns x (by simp [hx])
    rw [pyWordsAux, if_neg (by simp [hc]), ih hcs (c :: acc) (Or.inl (by simp))]
    simp

lemma pyWords_bearer (t : List Char) (hne : t ≠ [])
    (hns : ∀ c ∈ t, pyIsSpace c = false) :
    pyWords (bearerLit ++ t) = [['B', 'e', 'a', 'r', 'e', 'r'], t] := by
  have h1 : pyWords (bearerLit ++ t) = ['B', 'e', 'a', 'r', 'e', 'r'] :: pyWordsAux t [] := rfl
  rw [h1, pyWordsAux_nosplit t hns [] (Or.inr hne)]
  simp

/-- One session record of the in-memory session map `_SESSIONS`
(FreeSwapP2P.py lines 78-79 and 110-115): wallet handle (opaque tag),
account name, pin, password. -/
structure Session where
  wallet : ℕ
  account_name : List Char
  pin : List Char
  password : List Char
deriving DecidableEq

/-- The session map: token → session (a Python dict keyed by token). -/
abbrev Sessions := List Char → Option Session

/-- FreeSwapP2P.py lines 81-88, `_auth`: requires an `Authorization` header
of the form `Bearer <token>` whose token is in the session map; otherwise a
401.  `token = authorization.split()[1]` raises IndexError when the header
has a single word; that exception leaves `_auth` unhandled (framework turns
it into a 500), modelled as the `(500, _)` error. -/
def _auth (sessions : Sessions) (authorization : Option (List Char)) :
    Except (ℕ × String) Session :=
  match authorization with
  | none => .error (401, "Missing or invalid Authorization header")
  | some h =>
    if startsWithChars bearerLit h then
      match (pyWords h).get? 1 with
      | none => .error (500, "IndexError")
      | some token =>
        match sessions token with
        | none => .error (401, "Invalid or expired session")
        | some sess => .ok sess
    else .error (401, "Missing or invalid Authorization header")

/-- FreeSwapP2P.py lines 134-139, `logout`: when the header is a non-empty
string starting with `Bearer `, pop its token from the session map
(`_SESSIONS.pop(token, None)`); always answer `{"ok": True}` (second
component `true`), except that a single-word header makes `split()[1]`
raise (second component `false`, a 500, map unchanged). -/
def logoutEndpoint (sessions : Sessions) (authorization : Option (List Char)) :
    Sessions × Bool :=
  match authorization with
  | some h =>
    if h ≠ [] ∧ startsWithChars bearerLit h = true then
      match (pyWords h).get? 1 with
      | some token => (fun k => if k = token then none else sessions k, true)
      | none => (sessions, false)
    else (sessions, true)
  | none => (sessions, true)

/-- The bech32 data charset of the recipient regex `_SMR_ADDR_RE`
(FreeSwapP2P.py line 91). -/
def smrCharset : List Char :=
  ['q', 'p', 'z', 'r', 'y', '9', 'x', '8', 'g', 'f', '2', 't', 'v', 'd', 'w', '0',
   's', '3', 'j', 'n', '5', '4', 'k', 'h', 'c', 'e', '6', 'm', 'u', 'a', '7', 'l']

/-- Full match of the regex body `smr1[charset]{59}`: 63 characters,
starting with `smr1`, remaining 59 in the charset. -/
def smrBody (cs : List Char) : Bool :=
  cs.length == 63 && decide (cs.take 4 = ['s', 'm', 'r', '1']) &&
    (cs.drop 4).all (fun c => smrCharset.contains c)

/-- Model of `_SMR_ADDR_RE.match(s)` succeeding, where the pattern is
`^smr1[charset]{59}$` (FreeSwapP2P.py line 91): Python's `$` also matches
just before one trailing newline, so a 63-character body followed by a
single `\n` matches too. -/
def smrAddrMatch (s : String) : Bool :=
  smrBody s.data || (s.data.getLast? == some '\n' && smrBody s.data.dropLast)

/-- The transaction object returned by the SDK to `send_transaction`: the
attributes the `/api/send` handler probes with `getattr` (FreeSwapP2P.py
lines 172-173).  `none` models an absent attribute. -/
structure SdkTx where
  id : Option String
  transactionId : Option String
  hash : Option String
  amount : Option ℤ
deriving DecidableEq

/-- What `send_transaction` (IotaWallet.py lines 238-265) gives back to its
caller: the SDK transaction object, or — when the SDK call raised — the
fallback dict `{'amount': '0', 'timestamp': '0'}` from its own `except`
(lines 264-265).  It never raises. -/
inductive SendTxOutcome where
  | tx (t : SdkTx)
  | errDict
deriving DecidableEq

/-- IotaWallet.py lines 238-265, `send_transaction`. -/
def send_transaction (sdk : Except String SdkTx) : SendTxOutcome :=
  match sdk with
  | .ok t => .tx t
  | .error _ => .errDict

/-- Python `a or b` over the `getattr(_, _, None)` results in
FreeSwapP2P.py line 172: first truthy value (None and "" are falsy). -/
def pyOr (a b : Option String) : Option String :=
  match a with
  | some s => if s = "" then b else some s
  | none => b

/-- HTTP outcome of an endpoint: a JSON body or an `HTTPException`. -/
inductive ApiResp (α : Type) where
  | ok (body : α)
  | httpError (code : ℕ) (detail : String)
deriving DecidableEq

/-- Body of a successful `/api/send` response (FreeSwapP2P.py line 174). -/
structure SendOk where
  txid : Option String
  amount : ℤ
deriving DecidableEq

/-- FreeSwapP2P.py lines 164-176, the `/api/send` handler body after the
auth dependency: amount and recipient validation, then the transfer.  The
second component records whether `send_transaction` was invoked.  On the
fallback dict, `getattr` finds no attributes on a plain dict, so
`txid = None` and `sent_amt = body.amount`, and the handler answers 200.
The `except` → 500 at lines 175-176 can only fire for exceptions raised
outside `send_transaction` (which itself never raises), so it has no
reachable arm in this model. -/
def sendBody (amount : ℤ) (recipient : String) (sdk : Except String SdkTx) :
    ApiResp SendOk × Bool :=
  if amount ≤ 0 then (.httpError 400 "Amount must be > 0 (micro-SMR)", false)
  else if smrAddrMatch recipient = false then
    (.httpError 400 "Invalid recipient address format", false)
  else
    match send_transaction sdk with
    | .tx t =>
      let txid := pyOr (pyOr t.id t.transactionId) t.hash
      let sent_amt := match t.amount with | some a => a | none => amount
      (.ok { txid := txid, amount := sent_amt }, true)
    | .errDict => (.ok { txid := none, amount := amount }, true)

/-- The full `/api/send` endpoint: auth dependency first, then the body. -/
def sendEndpoint (sessions : Sessions) (authorization : Option (List Char))
    (amount : ℤ) (recipient : String) (sdk : Except String SdkTx) :
    ApiResp SendOk × Bool :=
  match _auth sessions authorization with
  | .error (c, d) => (.httpError c d, false)
  | .ok _ => sendBody amount recipient sdk

/-- The apostrophe character, written via its code point. -/
def apos : Char := Char.ofNat 39

/-- The literal `available=` followed by an apostrophe: the fixed part of
the regex `available='(\d+)'` in `parse_available_balance`
(IotaWallet.py line 570). -/
def availLit : List Char :=
  ['a', 'v', 'a', 'i', 'l', 'a', 'b', 'l', 'e', '='] ++ [apos]

/-- Maximal leading run of ASCII digits (the greedy `\d+`). -/
def digitsTake : List Char → List Char
  | [] => []
  | c :: cs => if c.isDigit then c :: digitsTake cs else []

/-- Numeric value of a digit string (Python `int(...)` of the capture). -/
def digitsVal (ds : List Char) : ℕ :=
  ds.foldl (fun n c => 10 * n + (c.toNat - 48)) 0

/-- Model of `re.search(r"available='(\d+)'", s)`: scan left to right; at
each position try the literal `available='`, then a non-empty maximal digit
run, then the closing apostrophe.  (Shrinking the greedy `\d+` cannot help：
the character after a shorter digit run is a digit, not an apostrophe, so
only the maximal run can be followed by the close quote.) -/
def findAvail : List Char → Option ℕ
  | [] => none
  | c :: cs =>
    if startsWithChars availLit (c :: cs) then
      let rest := (c :: cs).drop availLit.length
      let ds := digitsTake rest
      if ds ≠ [] ∧ (rest.drop ds.length).head? = some apos then some (digitsVal ds)
      else findAvail cs
    else findAvail cs

/-- IotaWallet.py lines 562-573, `parse_available_balance`: the captured
digits of the first `available='(\d+)'` match as an int, or 0 when there is
no match; its own `try/except` returns 0 on any error, so it never raises
and always returns a non-negative int. -/
def parse_available_balance (balance_str : List Char) : ℕ :=
  (findAvail balance_str).getD 0

/-- Modelled from CPython semantics of `float(n)` for a non-negative int
`n`: round to nearest IEEE-754 binary64 (53-bit significand, ties to even);
`none` when the rounded value reaches 2^1024 (CPython raises
OverflowError).  Every float produced this way has an integer value, so the
result stays in ℕ. -/
def floatOfNat (n : ℕ) : Option ℕ :=
  if n < pow2 53 then some n
  else
    let k := findExp 4096 n
    let sh := k - 52
    let m := n / pow2 sh
    let r := n % pow2 sh
    let m2 :=
      if 2 * r < pow2 sh then m
      else if pow2 sh < 2 * r then m + 1
      else if m % 2 = 0 then m else m + 1
    let v := m2 * pow2 sh
    if v < pow2 1024 then some v else none

/-- FreeSwapP2P.py lines 93-101, `_parse_balance_to_micros`, for a `raw`
whose observable is its string form (the balance object or a str — not an
int/float): `parsed = parse_available_balance(str(raw))`, then
`float(parsed)` (OverflowError past 2^1024 → caught → `return 0`, since a
non-int raw skips the numeric fallback), then `parsed * 1_000_000` in
binary64 (overflow gives `inf`, and `round(inf)` raises → caught →
`return 0`), then `int(round(...))`, exact on an integer-valued float. -/
def parse_balance_to_micros_str (s : List Char) : ℕ :=
  let parsed := parse_available_balance s
  match floatOfNat parsed with
  | none => 0
  | some v =>
    match floatOfNat (v * 1000000) with
    | none => 0
    | some w => w

/-- IotaWallet.py lines 549-559, `get_my_balance`: the synced balance
object (observed through its string form), or the int 0 when the SDK raised
(its own `except` at lines 557-559). -/
def get_my_balance (sdk : Except String (List Char)) : Sum (List Char) ℕ :=
  match sdk with
  | .ok b => .inl b
  | .error _ => .inr 0

/-- FreeSwapP2P.py lines 141-148, the `/api/balance` handler:
`raw = get_my_balance(...) or 0` (the int 0 is falsy, a balance object is
truthy), then `_parse_balance_to_micros(raw)` on `str(raw)` (`str(0)` is
`"0"`).  Nothing in the body can raise — `get_my_balance` and the parser
both swallow their exceptions — so the handler's own `except` → 500 has no
reachable arm in this model. -/
def balanceEndpoint (sessions : Sessions) (authorization : Option (List Char))
    (sdk : Except String (List Char)) : ApiResp ℕ :=
  match _auth sessions authorization with
  | .error (c, d) => .httpError c d
  | .ok _ =>
    let rawStr : List Char :=
      match get_my_balance sdk with
      | .inl b => b
      | .inr _ => ['0']
    .ok (parse_balance_to_micros_str rawStr)

/-- IotaWallet.py lines 517-527, `get_my_address_Reference`: the first
address string of the account, or `""` when the SDK raised or the account
has no address (its own `except` returns `""`).  It never raises. -/
def get_my_address_Reference (sdk : Except String (List Char)) : List Char :=
  match sdk with
  | .ok a => a
  | .error _ => []

/-- FreeSwapP2P.py lines 150-162, the `/api/address` handler:
`get_my_address_instanced` (which forwards to `get_my_address_Reference`
for a non-None wallet, IotaWallet.py lines 540-546), then a 404 when the
address is falsy; the explicit `except HTTPException: raise` re-raises that
404 past the generic handler. -/
def addressEndpoint (sessions : Sessions) (authorization : Option (List Char))
    (sdk : Except String (List Char)) : ApiResp (List Char) :=
  match _auth sessions authorization with
  | .error (c, d) => .httpError c d
  | .ok _ =>
    let addr := get_my_address_Reference sdk
    if addr = [] then .httpError 404 "Address not found"
    else .ok addr

/-- True exactly on a 400 response. -/
def isBadRequest {α : Type} : ApiResp α → Bool
  | .httpError 400 _ => true
  | _ => false

/-- True exactly on a 500 response. -/
def isServerError {α : Type} : ApiResp α → Bool
  | .httpError 500 _ => true
  | _ => false

/-- C7: a `/api/send` request (with a valid session) whose amount is ≤ 0 or
whose recipient fails the bech32 regex is answered with a 400 and
`send_transaction` is never invoked (FreeSwapP2P.py lines 166-169 run
before the `try` block at line 170). -/
theorem send_rejects_invalid (sessions : Sessions) (authorization : Option (List Char))
    (sess : Session) (amount : ℤ) (recipient : String) (sdk : Except String SdkTx)
    (hauth : _auth sessions authorization = .ok sess)
    (h : amount ≤ 0 ∨ smrAddrMatch recipient = false) :
    (sendEndpoint sessions authorization amount recipient sdk).2 = false ∧
    isBadRequest (sendEndpoint sessions authorization amount recipient sdk).1 = true := by
  unfold sendEndpoint
  rw [hauth]
  rcases h with h | h
  · simp [sendBody, h, isBadRequest]
  · by_cases ha : amount ≤ 0
    · simp [sendBody, ha, isBadRequest]
    · simp [sendBody, ha, h, isBadRequest]

/-- Fixture: a session token. -/
def tok0 : List Char := ['t', 'k']

/-- Fixture: a session record. -/
def sess0 : Session :=
  { wallet := 1, account_name := ['a'], pin := ['p'], password := ['w'] }

/-- Fixture: a session map holding exactly `tok0`. -/
def sessions0 : Sessions := fun k => if k = tok0 then some sess0 else none

/-- Fixture: the `Authorization: Bearer tk` header. -/
def hdr0 : Option (List Char) := some (bearerLit ++ tok0)

/-- Fixture: an SDK transaction object with no probed attributes. -/
def sdkTx0 : SdkTx := { id := none, transactionId := none, hash := none, amount := none }

/-- Witness for `send_rejects_invalid`: amount 0 with a junk recipient. -/
theorem send_rejects_invalid_witness :
    _auth sessions0 hdr0 = .ok sess0 ∧
    ((0 : ℤ) ≤ 0 ∨ smrAddrMatch "xyz" = false) ∧
    ((sendEndpoint sessions0 hdr0 0 "xyz" (.ok sdkTx0)).2 = false ∧
     isBadRequest (sendEndpoint sessions0 hdr0 0 "xyz" (.ok sdkTx0)).1 = true) :=
  ⟨rfl, Or.inl (by decide),
   send_rejects_invalid sessions0 hdr0 sess0 0 "xyz" (.ok sdkTx0) rfl
     (Or.inl (by decide))⟩

/-- C8: for a token `t` in the session map (tokens are non-empty and
whitespace-free, as produced by `secrets.token_urlsafe`), a POST
`/api/logout` with header `Bearer t` removes `t` from the map and answers
ok, and every subsequent authenticated call with the same header —
`/api/balance`, `/api/address`, `/api/send` — fails with the 401
`Invalid or expired session` from `_auth`. -/
theorem logout_invalidates_token (sessions : Sessions) (t : List Char) (d : Session)
    (hmem : sessions t = some d) (hne : t ≠ []) (hns : ∀ c ∈ t, pyIsSpace c = false)
    (balSdk addrSdk : Except String (List Char)) (amount : ℤ) (recipient : String)
    (sendSdk : Except String SdkTx) :
    (logoutEndpoint sessions (some (bearerLit ++ t))).1 t = none ∧
    (logoutEndpoint sessions (some (bearerLit ++ t))).2 = true ∧
    _auth (logoutEndpoint sessions (some (bearerLit ++ t))).1 (some (bearerLit ++ t)) =
      .error (401, "Invalid or expired session") ∧
    balanceEndpoint (logoutEndpoint sessions (some (bearerLit ++ t))).1
        (some (bearerLit ++ t)) balSdk = .httpError 401 "Invalid or expired session" ∧
    addressEndpoint (logoutEndpoint sessions (some (bearerLit ++ t))).1
        (some (bearerLit ++ t)) addrSdk = .httpError 401 "Invalid or expired session" ∧
    sendEndpoint (logoutEndpoint sessions (some (bearerLit ++ t))).1
        (some (bearerLit ++ t)) amount recipient sendSdk =
      (.httpError 401 "Invalid or expired session", false) := by
  have hpre : startsWithChars bearerLit (bearerLit ++ t) = true :=
    startsWithChars_append bearerLit t
  have hwords := pyWords_bearer t hne hns
  have hbne : (bearerLit ++ t) ≠ [] := by simp [bearerLit]
  have hlog : logoutEndpoint sessions (some (bearerLit ++ t)) =
      (fun k => if k = t then none else sessions k, true) := by
    simp only [logoutEndpoint]
    rw [if_pos ⟨hbne, hpre⟩, hwords]
    rfl
  have hauth : _auth (fun k => if k = t then none else sessions k)
      (some (bearerLit ++ t)) = .error (401, "Invalid or expired session") := by
    simp only [_auth]
    rw [hwords]
    simp [hpre]
  rw [hlog]
  refine ⟨by simp, rfl, hauth, ?_, ?_, ?_⟩
  · unfold balanceEndpoint; rw [hauth]
  · unfold addressEndpoint; rw [hauth]
  · unfold sendEndpoint; rw [hauth]

/-- Witness for `logout_invalidates_token` at the fixture session map. -/
theorem logout_invalidates_token_witness :
    sessions0 tok0 = some sess0 ∧
    ((logoutEndpoint sessions0 (some (bearerLit ++ tok0))).1 tok0 = none ∧
     (logoutEndpoint sessions0 (some (bearerLit ++ tok0))).2 = true ∧
     _auth (logoutEndpoint sessions0 (some (bearerLit ++ tok0))).1
         (some (bearerLit ++ tok0)) = .error (401, "Invalid or expired session") ∧
     balanceEndpoint (logoutEndpoint sessions0 (some (bearerLit ++ tok0))).1
         (some (bearerLit ++ tok0)) (.ok ['b']) =
       .httpError 401 "Invalid or expired session" ∧
     addressEndpoint (logoutEndpoint sessions0 (some (bearerLit ++ tok0))).1
         (some (bearerLit ++ tok0)) (.ok ['a']) =
       .httpError 401 "Invalid or expired session" ∧
     sendEndpoint (logoutEndpoint sessions0 (some (bearerLit ++ tok0))).1
         (some (bearerLit ++ tok0)) 5 "xyz" (.ok sdkTx0) =
       (.httpError 401 "Invalid or expired session", false)) :=
  ⟨by decide,
   logout_invalidates_token sessions0 tok0 sess0 (by decide) (by decide) (by decide)
     (.ok ['b']) (.ok ['a']) 5 "xyz" (.ok sdkTx0)⟩

/-- Fixture: a syntactically valid Shimmer bech32 recipient. -/
def goodAddr : String := String.mk ('s' :: 'm' :: 'r' :: '1' :: List.replicate 59 'q')

set_option maxRecDepth 8000 in
/-- C9 counterexample: when the SDK transfer raises, `send_transaction`
swallows the exception (IotaWallet.py lines 264-265) and returns the
fallback dict, on which `getattr` finds nothing; `/api/send` then answers
200 with `txid = None` and the request amount — not a 500 server failure.
The claim that a failing transfer is reported as HTTP 500 with the
exception text is therefore false. -/
theorem wallet_error_reported_ok_cex :
    smrAddrMatch goodAddr = true ∧
    sendBody 5 goodAddr (.error "insufficient funds") =
      (.ok { txid := none, amount := 5 }, true) ∧
    isServerError (sendBody 5 goodAddr (.error "insufficient funds")).1 = false := by
  exact ⟨by decide, by decide, by decide⟩

/-- The balance parser on the string `"0"` (what `str(0)` gives after a
failed sync): no regex match, so 0 micro-units. -/
lemma parse_zero_micros : parse_balance_to_micros_str ['0'] = 0 := by decide

set_option maxRecDepth 8000 in
/-- C9 amended: wallet-library exceptions are caught inside the IotaWallet
helpers, not at the endpoint boundary: a failing transfer makes `/api/send`
answer 200 with `txid = None` and the request amount; a failing balance
sync makes `/api/balance` answer 200 with `available = 0`; a failing
address lookup makes `/api/address` answer 404.  None of them produces the
500-with-exception-text response (that handler arm is unreachable for
wallet-library exceptions). -/
theorem wallet_error_fallback_responses (sessions : Sessions)
    (authorization : Option (List Char)) (sess : Session)
    (hauth : _auth sessions authorization = .ok sess)
    (e : String) (amount : ℤ) (recipient : String)
    (hpos : 0 < amount) (haddr : smrAddrMatch recipient = true) :
    sendEndpoint sessions authorization amount recipient (.error e) =
      (.ok { txid := none, amount := amount }, true) ∧
    isServerError (sendEndpoint sessions authorization amount recipient (.error e)).1 =
      false ∧
    balanceEndpoint sessions authorization (.error e) = .ok 0 ∧
    addressEndpoint sessions authorization (.error e) = .httpError 404 "Address not found" := by
  have hna : ¬ amount ≤ 0 := not_le.mpr hpos
  have hs : sendEndpoint sessions authorization amount recipient (.error e) =
      (.ok { txid := none, amount := amount }, true) := by
    unfold sendEndpoint
    rw [hauth]
    simp [sendBody, hna, haddr, send_transaction]
  refine ⟨hs, by rw [hs]; rfl, ?_, ?_⟩
  · unfold balanceEndpoint
    rw [hauth]
    simp [get_my_balance, parse_zero_micros]
  · unfold addressEndpoint
    rw [hauth]
    simp [get_my_address_Reference]

set_option maxRecDepth 8000 in
/-- Witness for `wallet_error_fallback_responses` at the fixture session
and a failing SDK with message `node sync failed`. -/
theorem wallet_error_fallback_responses_witness :
    _auth sessions0 hdr0 = .ok sess0 ∧
    (0 : ℤ) < 7 ∧
    smrAddrMatch goodAddr = true ∧
    (sendEndpoint sessions0 hdr0 7 goodAddr (.error "node sync failed") =
       (.ok { txid := none, amount := 7 }, true) ∧
     isServerError (sendEndpoint sessions0 hdr0 7 goodAddr
         (.error "node sync failed")).1 = false ∧
     balanceEndpoint sessions0 hdr0 (.error "node sync failed") = .ok 0 ∧
     addressEndpoint sessions0 hdr0 (.error "node sync failed") =
       .httpError 404 "Address not found") :=
  ⟨rfl, by decide, by decide,
   wallet_error_fallback_responses sessions0 hdr0 sess0 rfl
     "node sync failed" 7 goodAddr (by decide) (by decide)⟩

/-- Fixture: a balance string carrying `available='10^309'`, large enough
that `float(parsed)` overflows binary64. -/
def hugeBalStr : List Char := availLit ++ ('1' :: List.replicate 309 '0') ++ [apos]

set_option maxRecDepth 200000 in
/-- C10 counterexample: for a raw whose string form carries
`available='1000...0'` (a 1 with 309 zeros), `parse_available_balance`
returns 10^309, but `float(parsed)` raises OverflowError (10^309 ≥ 2^1024),
the `except` branch returns 0 (the raw is not an int/float), and so
`_parse_balance_to_micros` returns 0 ≠ 1,000,000 × 10^309.  The claimed
exact equality for every input is therefore false. -/
theorem parse_micros_overflow_cex :
    parse_available_balance hugeBalStr =
      1000000000000000000000000000000000000000000000000000000000000000000000000000000000000000000000000000000000000000000000000000000000000000000000000000000000000000000000000000000000000000000000000000000000000000000000000000000000000000000000000000000000000000000000000000000000000000000000000000000000000000000000 ∧
    parse_balance_to_micros_str hugeBalStr = 0 ∧
    parse_balance_to_micros_str hugeBalStr ≠
      1000000 * parse_available_balance hugeBalStr := by
  exact ⟨by decide, by decide, by decide⟩

/-- C10 amended: whenever the parsed value is at most 9,007,199,254 (so
both it and its product with 1,000,000 stay below 2^53 and survive the
binary64 pipeline exactly), `_parse_balance_to_micros` returns exactly
1,000,000 × `parse_available_balance(str(raw))`; beyond that range binary64
rounding or overflow can change the result (overflow yields 0). -/
theorem parse_micros_exact_range (s : List Char)
    (h : parse_available_balance s ≤ 9007199254) :
    parse_balance_to_micros_str s = 1000000 * parse_available_balance s := by
  have h53 : pow2 53 = 9007199254740992 := by decide
  have h1 : parse_available_balance s < pow2 53 := by omega
  have h2 : parse_available_balance s * 1000000 < pow2 53 := by omega
  have e1 : floatOfNat (parse_available_balance s) = some (parse_available_balance s) := by
    unfold floatOfNat
    rw [if_pos h1]
  have e2 : floatOfNat (parse_available_balance s * 1000000) =
      some (parse_available_balance s * 1000000) := by
    unfold floatOfNat
    rw [if_pos h2]
  simp only [parse_balance_to_micros_str, e1, e2]
  exact Nat.mul_comm _ _

/-- Fixture: a balance string carrying `available='123'`. -/
def smallBalStr : List Char := availLit ++ ['1', '2', '3'] ++ [apos]

/-- Witness for `parse_micros_exact_range`: parsed value 123 gives
123,000,000 micro-units. -/
theorem parse_micros_exact_range_witness :
    parse_available_balance smallBalStr ≤ 9007199254 ∧
    parse_balance_to_micros_str smallBalStr = 1000000 * parse_available_balance smallBalStr :=
  ⟨by decide, parse_micros_exact_range smallBalStr (by decide)⟩
